import Mathlib

/-!
# libosrmc: the C veneer over the routing engine

A shallow embedding of `src/libosrmc/osrmc.cc` and `src/osrmc.h`.

Conventions of the embedding.

* An output argument `osrmc_error_t* error` is a slot holding either the null
  pointer or an error object.  A function taking such an argument receives the
  slot's content before the call (`Option osrmc_error`) and returns its content
  after the call.  `*error = new osrmc_error{..}` overwrites the slot.
* A function body `try { .. } catch (const std::exception& e) { .. }` is a body
  in `Except Exception` followed by a `match` whose `.error e` arm is the
  handler.
* The engine's types and the C++ library are not part of the repository.  What
  the wrapper needs of them is either declared here after the engine's headers
  (the JSON variant, the status enumeration) or taken as a parameter: the
  types `ν` (`double`) and `φ` (`float`), the implicit conversion `narrow` from
  `double` to `float`, the value `INFINITY`, and the text `what e` carried by
  an exception.
-/

namespace osrmc

/-! ## The engine's JSON tree (`osrm/json_container.hpp`) -/

/-- The variant `osrm::json::Value` over `String`, `Number`, `Object`, `Array`,
`True`, `False`, `Null`, in that order.  An `Object` holds a `std::map` from
keys to values, here an association list read by its first match; an `Array`
holds a `std::vector` of values. -/
inductive Value (ν : Type) : Type where
  | String (value : String)
  | Number (value : ν)
  | Object (values : List (String × Value ν))
  | Array (values : List (Value ν))
  | True
  | False
  | Null

/-- The `values` member of an `osrm::json::Object`. -/
abbrev Object (ν : Type) : Type := List (String × Value ν)

/-- The exceptions the accessors of the tree can raise: `get<T>()` on a variant
holding another alternative, `std::vector::at` past the end (index and size),
`std::map::at` on a missing key. -/
inductive Exception : Type where
  | bad_variant_access
  | vector_out_of_range (n size : Nat)
  | map_out_of_range
  deriving DecidableEq, Repr

/-- The call `values.find(key)` on a map, with `none` for `values.end()`. -/
def map_find {ν : Type} (values : Object ν) (key : String) : Option (Value ν) :=
  List.lookup key values

/-- The expression `values[key]` on a map, read as a value: the mapped value, or the default-constructed
variant when the key is missing.  A default-constructed variant holds its first
alternative, an empty `String`.  (The insertion of that default into the map is
not observable through the return value or the error slot and is left out.) -/
def map_index {ν : Type} (values : Object ν) (key : String) : Value ν :=
  match map_find values key with
  | some v => v
  | none => Value.String ""

/-- The call `values.at(key)` on a map. -/
def map_at {ν : Type} (values : Object ν) (key : String) : Except Exception (Value ν) :=
  match map_find values key with
  | some v => .ok v
  | none => .error .map_out_of_range

/-- The call `values.at(n)` on a vector. -/
def vector_at {ν : Type} (values : List (Value ν)) (n : Nat) : Except Exception (Value ν) :=
  match values[n]? with
  | some v => .ok v
  | none => .error (.vector_out_of_range n values.length)

/-- The call `v.get<osrm::json::String>().value`. -/
def get_String {ν : Type} : Value ν → Except Exception String
  | .String s => .ok s
  | _ => .error .bad_variant_access

/-- The call `v.get<osrm::json::Number>().value`. -/
def get_Number {ν : Type} : Value ν → Except Exception ν
  | .Number d => .ok d
  | _ => .error .bad_variant_access

/-- The call `v.get<osrm::json::Object>().values`. -/
def get_Object {ν : Type} : Value ν → Except Exception (Object ν)
  | .Object o => .ok o
  | _ => .error .bad_variant_access

/-- The call `v.get<osrm::json::Array>().values`. -/
def get_Array {ν : Type} : Value ν → Except Exception (List (Value ν))
  | .Array a => .ok a
  | _ => .error .bad_variant_access

/-- The call `v.is<osrm::json::Null>()`. -/
def is_Null {ν : Type} : Value ν → Bool
  | .Null => true
  | _ => false

/-! ## The error channel -/

/-- The error object, `struct osrmc_error final { std::string code; std::string message; }`. -/
structure osrmc_error where
  code : String
  message : String
  deriving DecidableEq, Repr

/-- Source function `osrmc_error_from_exception`: `*error = new osrmc_error{"Exception", e.what()}`. -/
def osrmc_error_from_exception (what : Exception → String) (e : Exception) :
    Option osrmc_error :=
  some { code := "Exception", message := what e }

/-! ## Table responses -/

section accessors

variable {ν φ : Type}

/-- The `try` block of `osrmc_table_response_duration`: the value returned and
the content of the error slot, or the exception raised. -/
def osrmc_table_response_duration_try (narrow : ν → φ) (INFINITY : φ)
    (response : Object ν) (from_ to_ : Nat) (error : Option osrmc_error) :
    Except Exception (φ × Option osrmc_error) :=
  if (map_find response "durations").isNone then
    .ok (INFINITY,
      some { code := "NoTable", message := "Table request not configured to return durations" })
  else do
    let durations ← get_Array (map_index response "durations")
    let durations_from_to_all ← get_Array (← vector_at durations from_)
    let nullable ← vector_at durations_from_to_all to_
    if is_Null nullable then
      .ok (INFINITY, some { code := "NoRoute", message := "Impossible route between points" })
    else do
      let duration ← get_Number nullable
      .ok (narrow duration, error)

/-- Source function `osrmc_table_response_duration`. -/
def osrmc_table_response_duration (what : Exception → String) (narrow : ν → φ) (INFINITY : φ)
    (response : Object ν) (from_ to_ : Nat) (error : Option osrmc_error) :
    φ × Option osrmc_error :=
  match osrmc_table_response_duration_try narrow INFINITY response from_ to_ error with
  | .ok r => r
  | .error e => (INFINITY, osrmc_error_from_exception what e)

/-- The `try` block of `osrmc_table_response_distance`. -/
def osrmc_table_response_distance_try (narrow : ν → φ) (INFINITY : φ)
    (response : Object ν) (from_ to_ : Nat) (error : Option osrmc_error) :
    Except Exception (φ × Option osrmc_error) :=
  if (map_find response "distances").isNone then
    .ok (INFINITY,
      some { code := "NoTable", message := "Table request not configured to return distances" })
  else do
    let distances ← get_Array (map_index response "distances")
    let distances_from_to_all ← get_Array (← vector_at distances from_)
    let nullable ← vector_at distances_from_to_all to_
    if is_Null nullable then
      .ok (INFINITY, some { code := "NoRoute", message := "Impossible route between points" })
    else do
      let distance ← get_Number nullable
      .ok (narrow distance, error)

/-- Source function `osrmc_table_response_distance`.  Its handler is
`*error = new osrmc_error{e.what()}`: the aggregate is initialised from one
value, which becomes `code`, and `message` is value-initialised to the empty
string. -/
def osrmc_table_response_distance (what : Exception → String) (narrow : ν → φ) (INFINITY : φ)
    (response : Object ν) (from_ to_ : Nat) (error : Option osrmc_error) :
    φ × Option osrmc_error :=
  match osrmc_table_response_distance_try narrow INFINITY response from_ to_ error with
  | .ok r => r
  | .error e => (INFINITY, some { code := what e, message := "" })

/-! ## Route and trip responses -/

/-- The `try` block of `osrmc_route_response_distance`. -/
def osrmc_route_response_distance_try (narrow : ν → φ)
    (response : Object ν) (error : Option osrmc_error) :
    Except Exception (φ × Option osrmc_error) := do
  let routes ← get_Array (map_index response "routes")
  let route ← get_Object (← vector_at routes 0)
  let distance ← get_Number (map_index route "distance")
  .ok (narrow distance, error)

/-- Source function `osrmc_route_response_distance`. -/
def osrmc_route_response_distance (what : Exception → String) (narrow : ν → φ) (INFINITY : φ)
    (response : Object ν) (error : Option osrmc_error) : φ × Option osrmc_error :=
  match osrmc_route_response_distance_try narrow response error with
  | .ok r => r
  | .error e => (INFINITY, osrmc_error_from_exception what e)

/-- The `try` block of `osrmc_route_response_duration`. -/
def osrmc_route_response_duration_try (narrow : ν → φ)
    (response : Object ν) (error : Option osrmc_error) :
    Except Exception (φ × Option osrmc_error) := do
  let routes ← get_Array (map_index response "routes")
  let route ← get_Object (← vector_at routes 0)
  let duration ← get_Number (map_index route "duration")
  .ok (narrow duration, error)

/-- Source function `osrmc_route_response_duration`. -/
def osrmc_route_response_duration (what : Exception → String) (narrow : ν → φ) (INFINITY : φ)
    (response : Object ν) (error : Option osrmc_error) : φ × Option osrmc_error :=
  match osrmc_route_response_duration_try narrow response error with
  | .ok r => r
  | .error e => (INFINITY, osrmc_error_from_exception what e)

/-- The `try` block of `osrmc_trip_response_distance`. -/
def osrmc_trip_response_distance_try (narrow : ν → φ)
    (response : Object ν) (error : Option osrmc_error) :
    Except Exception (φ × Option osrmc_error) := do
  let routes ← get_Array (map_index response "trips")
  let route ← get_Object (← vector_at routes 0)
  let distance ← get_Number (map_index route "distance")
  .ok (narrow distance, error)

/-- Source function `osrmc_trip_response_distance`. -/
def osrmc_trip_response_distance (what : Exception → String) (narrow : ν → φ) (INFINITY : φ)
    (response : Object ν) (error : Option osrmc_error) : φ × Option osrmc_error :=
  match osrmc_trip_response_distance_try narrow response error with
  | .ok r => r
  | .error e => (INFINITY, osrmc_error_from_exception what e)

/-- The `try` block of `osrmc_trip_response_duration`. -/
def osrmc_trip_response_duration_try (narrow : ν → φ)
    (response : Object ν) (error : Option osrmc_error) :
    Except Exception (φ × Option osrmc_error) := do
  let routes ← get_Array (map_index response "trips")
  let route ← get_Object (← vector_at routes 0)
  let duration ← get_Number (map_index route "duration")
  .ok (narrow duration, error)

/-- Source function `osrmc_trip_response_duration`. -/
def osrmc_trip_response_duration (what : Exception → String) (narrow : ν → φ) (INFINITY : φ)
    (response : Object ν) (error : Option osrmc_error) : φ × Option osrmc_error :=
  match osrmc_trip_response_duration_try narrow response error with
  | .ok r => r
  | .error e => (INFINITY, osrmc_error_from_exception what e)

/-! ## The six scalar accessors and the paths they address -/

/-- One step of a path into a JSON tree: a key of an object or an index of an
array. -/
inductive Step : Type where
  | key (k : String)
  | idx (n : Nat)
  deriving DecidableEq, Repr

/-- The value a path addresses in a tree, when every step of it can be taken:
a key is taken on an object that has it, an index on an array that is long
enough.  This follows the wording of the specification (a fixed JSON-like
path), not the code. -/
def resolve : Value ν → List Step → Option (Value ν)
  | v, [] => some v
  | .Object o, .key k :: rest =>
    match map_find o k with
    | some v => resolve v rest
    | none => none
  | .Array a, .idx n :: rest =>
    match a[n]? with
    | some v => resolve v rest
    | none => none
  | _, _ :: _ => none

/-- The six scalar response accessors. -/
inductive Accessor : Type where
  | route_distance
  | route_duration
  | trip_distance
  | trip_duration
  | table_duration (from_ to_ : Nat)
  | table_distance (from_ to_ : Nat)
  deriving DecidableEq, Repr

/-- The fixed path of each accessor, as the specification gives it:
`routes[0].distance`, `routes[0].duration`, `trips[0].distance`,
`trips[0].duration`, `durations[from][to]`, `distances[from][to]`. -/
def Accessor.path : Accessor → List Step
  | .route_distance => [.key "routes", .idx 0, .key "distance"]
  | .route_duration => [.key "routes", .idx 0, .key "duration"]
  | .trip_distance => [.key "trips", .idx 0, .key "distance"]
  | .trip_duration => [.key "trips", .idx 0, .key "duration"]
  | .table_duration from_ to_ => [.key "durations", .idx from_, .idx to_]
  | .table_distance from_ to_ => [.key "distances", .idx from_, .idx to_]

/-- The source function behind each accessor. -/
def Accessor.call (what : Exception → String) (narrow : ν → φ) (INFINITY : φ) :
    Accessor → Object ν → Option osrmc_error → φ × Option osrmc_error
  | .route_distance => osrmc_route_response_distance what narrow INFINITY
  | .route_duration => osrmc_route_response_duration what narrow INFINITY
  | .trip_distance => osrmc_trip_response_distance what narrow INFINITY
  | .trip_duration => osrmc_trip_response_duration what narrow INFINITY
  | .table_duration from_ to_ => fun response =>
      osrmc_table_response_duration what narrow INFINITY response from_ to_
  | .table_distance from_ to_ => fun response =>
      osrmc_table_response_distance what narrow INFINITY response from_ to_

end accessors

/-! ## Errors reported by the engine -/

/-- The `try` block of `osrmc_error_from_json`: the new content of the error
slot, or the exception raised while the two fields are read. -/
def osrmc_error_from_json_try {ν : Type} (json : Object ν) :
    Except Exception (Option osrmc_error) := do
  let code ← get_String (map_index json "code")
  let message ← get_String (map_index json "message")
  let code := if code = "" then "Unknown" else code
  .ok (some { code := code, message := message })

/-- Source function `osrmc_error_from_json`. -/
def osrmc_error_from_json {ν : Type} (what : Exception → String) (json : Object ν) :
    Option osrmc_error :=
  match osrmc_error_from_json_try json with
  | .ok r => r
  | .error e => osrmc_error_from_exception what e

/-! ## Query dispatch -/

/-- The enumeration `osrm::Status`. -/
inductive Status : Type where
  | Ok
  | Error
  deriving DecidableEq, Repr

/-- The engine behind an `osrmc_osrm_t` handle, as far as the dispatchers use
it: the three query methods.  Each takes the parameters and an empty result
container and returns a status; the container as the call leaves it is part of
the result here. -/
structure OSRM (ν ρ τ ψ : Type) where
  Route : ρ → Status × Object ν
  Table : τ → Status × Object ν
  Trip : ψ → Status × Object ν

section dispatch

variable {ν ρ τ ψ : Type}

/-- Source function `osrmc_route`: the response handle (`none` for `nullptr`)
and the content of the error slot. -/
def osrmc_route (what : Exception → String) (osrm : OSRM ν ρ τ ψ) (params : ρ)
    (error : Option osrmc_error) : Option (Object ν) × Option osrmc_error :=
  let (status, out) := osrm.Route params
  if status = Status.Ok then (some out, error)
  else (none, osrmc_error_from_json what out)

/-- Source function `osrmc_table`. -/
def osrmc_table (what : Exception → String) (osrm : OSRM ν ρ τ ψ) (params : τ)
    (error : Option osrmc_error) : Option (Object ν) × Option osrmc_error :=
  let (status, out) := osrm.Table params
  if status = Status.Ok then (some out, error)
  else (none, osrmc_error_from_json what out)

/-- Source function `osrmc_trip`. -/
def osrmc_trip (what : Exception → String) (osrm : OSRM ν ρ τ ψ) (params : ψ)
    (error : Option osrmc_error) : Option (Object ν) × Option osrmc_error :=
  let (status, out) := osrm.Trip params
  if status = Status.Ok then (some out, error)
  else (none, osrmc_error_from_json what out)

/-- How a piece of code ends: normally with a value, by raising an exception,
or in undefined behaviour (an unchecked `operator[]` past the end of a
vector). -/
inductive Outcome (α : Type) : Type where
  | done (a : α)
  | raised (e : Exception)
  | undefined

/-- The body of the loop of `osrmc_route_with` up to the call of the handler:
the name, longitude and latitude read from one waypoint, in the order the
source reads them. -/
def waypoint_arguments (waypoint : Value ν) : Outcome (String × ν × ν) :=
  match get_Object waypoint with
  | .error e => .raised e
  | .ok waypoint_typed =>
    match map_at waypoint_typed "location" >>= get_Array with
    | .error e => .raised e
    | .ok location =>
      match map_at waypoint_typed "name" >>= get_String with
      | .error e => .raised e
      | .ok name =>
        match location[0]? with
        | none => .undefined
        | some v0 =>
          match get_Number v0 with
          | .error e => .raised e
          | .ok longitude =>
            match location[1]? with
            | none => .undefined
            | some v1 =>
              match get_Number v1 with
              | .error e => .raised e
              | .ok latitude => .done (name, longitude, latitude)

/-- The loop `for (const auto& waypoint : waypoints)` of `osrmc_route_with`.
The handler is a function of the caller: it receives the data pointer, the
name, the longitude and the latitude, acts on the state `σ` of the caller and
returns a value, which the loop discards (`(void)handler(..)`). -/
def osrmc_route_with_loop {δ σ r : Type} (handler : δ → String → ν → ν → σ → r × σ) (data : δ) :
    List (Value ν) → σ → σ × Outcome Unit
  | [], s => (s, .done ())
  | waypoint :: rest, s =>
    match waypoint_arguments waypoint with
    | .done (name, longitude, latitude) =>
      osrmc_route_with_loop handler data rest (handler data name longitude latitude s).2
    | .raised e => (s, .raised e)
    | .undefined => (s, .undefined)

/-- Source function `osrmc_route_with`: the state of the caller after the calls
of the handler and the content of the error slot, or `none` when the call runs
into undefined behaviour. -/
def osrmc_route_with {δ σ r : Type} (what : Exception → String) (osrm : OSRM ν ρ τ ψ)
    (params : ρ) (handler : δ → String → ν → ν → σ → r × σ) (data : δ) (s : σ)
    (error : Option osrmc_error) : Option (σ × Option osrmc_error) :=
  let (status, result) := osrm.Route params
  if status ≠ Status.Ok then some (s, osrmc_error_from_json what result)
  else
    match map_at result "waypoints" >>= get_Array with
    | .error e => some (s, osrmc_error_from_exception what e)
    | .ok waypoints =>
      match osrmc_route_with_loop handler data waypoints s with
      | (s1, .done _) => some (s1, error)
      | (s1, .raised e) => some (s1, osrmc_error_from_exception what e)
      | (_, .undefined) => none

/-- A well-formed entry of the `waypoints` array, in the words of the
specification: an object with a string `name` and a `location` array that
starts with two numbers.  The triple holds the name and the two numbers. -/
def WellFormedWaypoint (waypoint : Value ν) (arguments : String × ν × ν) : Prop :=
  ∃ o rest, waypoint = .Object o ∧ map_find o "name" = some (.String arguments.1) ∧
    map_find o "location" =
      some (.Array (.Number arguments.2.1 :: .Number arguments.2.2 :: rest))

/-- A handler that appends the arguments of each call to a log kept by the
caller and returns a fixed value. -/
def recording_handler {δ r : Type} (returned : r) (data : δ) (name : String)
    (longitude latitude : ν) (log : List (δ × String × ν × ν)) :
    r × List (δ × String × ν × ν) :=
  (returned, log ++ [(data, name, longitude, latitude)])

end dispatch

/-! ## Annotation selectors

The selector is a value of the enumeration `AnnotationsType` of the engine
(one for routes, one for tables), a bit mask over `int`.  The enumerators
`Duration` and `Distance` are declared by the engine and are parameters here;
the masks are natural numbers, as all enumerators are non-negative.  The
operator `|=` of the enumeration is declared by the engine as well and is read
as the bitwise or of the underlying values, assigned to its left operand. -/

/-- Source function `osrmc_route_annotations_construct`: the selector the new
handle points to. -/
def osrmc_route_annotations_construct (Duration : Nat) : Nat := Duration

/-- Source function `osrmc_route_annotations_enable_distance`: the selector
after the call. -/
def osrmc_route_annotations_enable_distance (Distance : Nat) (annotations : Nat)
    (enable : Bool) : Nat :=
  if enable then annotations ||| Distance
  else annotations ^^^ Distance

/-- Source function `osrmc_table_annotations_construct`. -/
def osrmc_table_annotations_construct (Duration : Nat) : Nat := Duration

/-- Source function `osrmc_table_annotations_enable_distance`. -/
def osrmc_table_annotations_enable_distance (Distance : Nat) (annotations : Nat)
    (enable : Bool) : Nat :=
  if enable then annotations ||| Distance
  else annotations ^^^ Distance

/-! ## Parameter objects -/

/-- The conversion `static_cast<short>` of an `int`: the value modulo `2^16`,
in the signed range. -/
def static_cast_short (x : Int) : Int := (x + 32768) % 65536 - 32768

/-- The engine structure `osrm::engine::Bearing { short bearing; short range; }`. -/
structure Bearing where
  bearing : Int
  range : Int
  deriving DecidableEq, Repr

/-- The members of `osrm::engine::api::BaseParameters` the wrapper writes.
The coordinate type `κ` belongs to the engine; a radius is kept as the `float`
it was given as (the widening to `double` is exact). -/
structure BaseParameters (κ φ : Type) where
  coordinates : List κ
  radiuses : List (Option φ)
  bearings : List (Option Bearing)

/-- The members of `osrm::RouteParameters` the wrapper writes. -/
structure RouteParameters (κ φ : Type) extends BaseParameters κ φ where
  steps : Bool
  alternatives : Bool
  annotations_type : Nat

/-- The members of `osrm::TableParameters` the wrapper writes. -/
structure TableParameters (κ φ : Type) extends BaseParameters κ φ where
  sources : List Nat
  destinations : List Nat
  annotations : Nat

section params

variable {κ φ : Type}

/-- Source function `osrmc_params_add_coordinate`.  The constructor
`Coordinate` of the engine, applied to the typed longitude and latitude, is a
parameter. -/
def osrmc_params_add_coordinate (Coordinate : φ → φ → κ) (params : BaseParameters κ φ)
    (longitude latitude : φ) : BaseParameters κ φ :=
  { params with coordinates := params.coordinates ++ [Coordinate longitude latitude] }

/-- Source function `osrmc_params_add_coordinate_with`. -/
def osrmc_params_add_coordinate_with (Coordinate : φ → φ → κ) (params : BaseParameters κ φ)
    (longitude latitude radius : φ) (bearing range : Int) : BaseParameters κ φ :=
  let bearing_typed : Bearing :=
    { bearing := static_cast_short bearing, range := static_cast_short range }
  { coordinates := params.coordinates ++ [Coordinate longitude latitude]
    radiuses := params.radiuses ++ [some radius]
    bearings := params.bearings ++ [some bearing_typed] }

/-- Source function `osrmc_route_params_set_annotations`: the selector is
copied into the parameters. -/
def osrmc_route_params_set_annotations (params : RouteParameters κ φ) (annotations : Nat) :
    RouteParameters κ φ :=
  { params with annotations_type := annotations }

/-- Source function `osrmc_table_params_set_annotations`. -/
def osrmc_table_params_set_annotations (params : TableParameters κ φ) (annotations : Nat) :
    TableParameters κ φ :=
  { params with annotations := annotations }

/-- One call of a coordinate-append operation, with its arguments. -/
inductive AddCoordinate (φ : Type) : Type where
  | plain (longitude latitude : φ)
  | with_ (longitude latitude radius : φ) (bearing range : Int)

/-- The effect of one call on a parameter object. -/
def AddCoordinate.apply (Coordinate : φ → φ → κ) (params : BaseParameters κ φ) :
    AddCoordinate φ → BaseParameters κ φ
  | .plain longitude latitude => osrmc_params_add_coordinate Coordinate params longitude latitude
  | .with_ longitude latitude radius bearing range =>
    osrmc_params_add_coordinate_with Coordinate params longitude latitude radius bearing range

/-- The coordinate a call asks to append. -/
def AddCoordinate.coordinate (Coordinate : φ → φ → κ) : AddCoordinate φ → κ
  | .plain longitude latitude => Coordinate longitude latitude
  | .with_ longitude latitude _ _ _ => Coordinate longitude latitude

end params

/-! ## Configuration -/

/-- The members of `osrm::EngineConfig` the wrapper writes: the storage
configuration, of a type `S` that belongs to the engine, and the flag
`use_shared_memory`. -/
structure EngineConfig (S : Type) where
  storage_config : S
  use_shared_memory : Bool

/-- The `try` block of `osrmc_config_construct`.  The path is `none` for the
null pointer.  The default-constructed `osrm::EngineConfig` and the constructor
`osrm::StorageConfig(base_path)`, which may raise, belong to the engine and are
parameters. -/
def osrmc_config_construct_try {S : Type} (default_config : EngineConfig S)
    (StorageConfig : String → Except Exception S) (base_path : Option String) :
    Except Exception (EngineConfig S) :=
  match base_path with
  | some path => do
    let storage_config ← StorageConfig path
    .ok { default_config with storage_config := storage_config, use_shared_memory := false }
  | none => .ok { default_config with use_shared_memory := true }

/-- Source function `osrmc_config_construct`: the configuration handle (`none`
for `nullptr`) and the content of the error slot. -/
def osrmc_config_construct {S : Type} (what : Exception → String)
    (default_config : EngineConfig S) (StorageConfig : String → Except Exception S)
    (base_path : Option String) (error : Option osrmc_error) :
    Option (EngineConfig S) × Option osrmc_error :=
  match osrmc_config_construct_try default_config StorageConfig base_path with
  | .ok out => (some out, error)
  | .error e => (none, osrmc_error_from_exception what e)

/-! ## Version (`src/osrmc.h`) -/

/-- The constant `OSRMC_VERSION_MAJOR`. -/
def OSRMC_VERSION_MAJOR : Nat := 1

/-- The constant `OSRMC_VERSION_MINOR`. -/
def OSRMC_VERSION_MINOR : Nat := 0

/-- The expression of the constant `OSRMC_VERSION`, `((major << 16) | minor)`,
as a function of the two numbers it packs, read as the `unsigned` that
`osrmc_get_version` returns (32 bits). -/
def pack_version (major minor : Nat) : Nat := ((major <<< 16) ||| minor) % 2 ^ 32

/-- The constant `OSRMC_VERSION`. -/
def OSRMC_VERSION : Nat := pack_version OSRMC_VERSION_MAJOR OSRMC_VERSION_MINOR

/-- Source function `osrmc_get_version`. -/
def osrmc_get_version : Nat := OSRMC_VERSION

/-- The comparison `version >> 16u == major` of `osrmc_is_abi_compatible`, as a
function of the version reported and of the major version compiled in. -/
def abi_check (version major : Nat) : Bool := decide (version >>> 16 = major)

/-- Source function `osrmc_is_abi_compatible`: the comparison as an `int`, 1
for true and 0 for false. -/
def osrmc_is_abi_compatible : Int :=
  if abi_check osrmc_get_version OSRMC_VERSION_MAJOR then 1 else 0

/-! ## Trip parameters -/

/-- The enumeration `osrm::TripParameters::SourceType`. -/
inductive SourceType : Type where
  | Any
  | First
  deriving DecidableEq, Repr

/-- The enumeration `osrm::TripParameters::DestinationType`. -/
inductive DestinationType : Type where
  | Any
  | Last
  deriving DecidableEq, Repr

/-- The members of `osrm::TripParameters` the wrapper writes; the structure
derives from `osrm::RouteParameters`. -/
structure TripParameters (κ φ : Type) extends RouteParameters κ φ where
  source : SourceType
  destination : DestinationType
  roundtrip : Bool

section trip

variable {κ φ : Type}

/-- Source function `osrmc_trip_params_add_source`. -/
def osrmc_trip_params_add_source (params : TripParameters κ φ) (first : Bool) :
    TripParameters κ φ :=
  if first then { params with source := SourceType.First }
  else params

/-- Source function `osrmc_trip_params_add_destination`. -/
def osrmc_trip_params_add_destination (params : TripParameters κ φ) (last : Bool) :
    TripParameters κ φ :=
  if last then { params with destination := DestinationType.Last }
  else params

/-- One call of an anchoring setter, with its argument. -/
inductive AnchorCall : Type where
  | add_source (first : Bool)
  | add_destination (last : Bool)
  deriving DecidableEq, Repr

/-- The effect of one call of an anchoring setter on a parameter object. -/
def AnchorCall.apply (params : TripParameters κ φ) : AnchorCall → TripParameters κ φ
  | .add_source first => osrmc_trip_params_add_source params first
  | .add_destination last => osrmc_trip_params_add_destination params last

end trip

/-! ## Lemmas on the JSON tree -/

section lemmas

variable {ν φ : Type}

theorem map_find_eq_none_iff (values : Object ν) (key : String) :
    map_find values key = none ↔ ∀ v, (key, v) ∉ values := by
  unfold map_find
  induction values with
  | nil => simp
  | cons p rest ih =>
    obtain ⟨k, w⟩ := p
    by_cases hk : key = k
    · subst hk
      simp [List.lookup]
      exact ⟨w, fun h => absurd rfl h⟩
    · have hb : (key == k) = false := by simpa using hk
      simp only [List.lookup, hb, ih, List.mem_cons, Prod.mk.injEq, not_or]
      constructor
      · intro h v
        exact ⟨fun hh => hk hh.1, h v⟩
      · intro h v
        exact (h v).2

theorem map_index_of_find {values : Object ν} {key : String} {v : Value ν}
    (h : map_find values key = some v) : map_index values key = v := by
  simp [map_index, h]

theorem vector_at_of_get {values : List (Value ν)} {n : Nat} {v : Value ν}
    (h : values[n]? = some v) : vector_at values n = .ok v := by
  simp [vector_at, h]

theorem resolve_key_eq_some {v w : Value ν} {k : String} {rest : List Step}
    (h : resolve v (.key k :: rest) = some w) :
    ∃ o v1, v = .Object o ∧ map_find o k = some v1 ∧ resolve v1 rest = some w := by
  cases v with
  | Object o =>
    simp only [resolve] at h
    cases hf : map_find o k with
    | none => simp [hf] at h
    | some v1 => exact ⟨o, v1, rfl, hf, by simpa [hf] using h⟩
  | _ => simp [resolve] at h

theorem resolve_idx_eq_some {v w : Value ν} {n : Nat} {rest : List Step}
    (h : resolve v (.idx n :: rest) = some w) :
    ∃ a v1, v = .Array a ∧ a[n]? = some v1 ∧ resolve v1 rest = some w := by
  cases v with
  | Array a =>
    simp only [resolve] at h
    cases hf : a[n]? with
    | none => simp [hf] at h
    | some v1 => exact ⟨a, v1, rfl, hf, by simpa [hf] using h⟩
  | _ => simp [resolve] at h

theorem resolve_nil_eq_some {v w : Value ν} (h : resolve v [] = some w) : v = w := by
  cases v <;> simpa [resolve] using h

end lemmas

/-! ## Table accessors: the two checked failures -/

section table_failures

variable {ν φ : Type}

/-- C1: on a table response without a `durations` key the duration accessor
returns `INFINITY` and sets the error to an object with code `NoTable`, and
likewise the distance accessor on a response without a `distances` key,
whatever `from`, `to`, the rest of the response and the error slot are. -/
theorem table_response_without_field_is_NoTable (what : Exception → String) (narrow : ν → φ)
    (INFINITY : φ) (response : Object ν) (from_ to_ : Nat) (error : Option osrmc_error) :
    ((∀ v, ("durations", v) ∉ response) →
      osrmc_table_response_duration what narrow INFINITY response from_ to_ error =
        (INFINITY, some { code := "NoTable",
                          message := "Table request not configured to return durations" })) ∧
    ((∀ v, ("distances", v) ∉ response) →
      osrmc_table_response_distance what narrow INFINITY response from_ to_ error =
        (INFINITY, some { code := "NoTable",
                          message := "Table request not configured to return distances" })) := by
  constructor
  · intro h
    have hf := (map_find_eq_none_iff response "durations").2 h
    simp [osrmc_table_response_duration, osrmc_table_response_duration_try, hf]
  · intro h
    have hf := (map_find_eq_none_iff response "distances").2 h
    simp [osrmc_table_response_distance, osrmc_table_response_distance_try, hf]

/-- A response with a distance table only, read for its durations, and one with
a duration table only, read for its distances. -/
theorem table_response_without_field_is_NoTable_witness :
    osrmc_table_response_duration (fun _ => "what") (fun d : Int => some d) none
        [("code", Value.String "Ok"), ("distances", Value.Array [Value.Array [Value.Number 7]])]
        0 0 none =
      (none, some { code := "NoTable",
                    message := "Table request not configured to return durations" }) ∧
    osrmc_table_response_distance (fun _ => "what") (fun d : Int => some d) none
        [("code", Value.String "Ok"), ("durations", Value.Array [Value.Array [Value.Number 7]])]
        4 9 (some { code := "Old", message := "" }) =
      (none, some { code := "NoTable",
                    message := "Table request not configured to return distances" }) :=
  ⟨(table_response_without_field_is_NoTable _ _ _ _ _ _ _).1 (by simp),
   (table_response_without_field_is_NoTable _ _ _ _ _ _ _).2 (by simp)⟩

/-- C2: when the requested field is an array, its entry at `from` is an array
and the entry of that row at `to` is the JSON null, the table accessor returns
`INFINITY` and sets the error to an object with code `NoRoute`. -/
theorem table_response_null_cell_is_NoRoute (what : Exception → String) (narrow : ν → φ)
    (INFINITY : φ) (response : Object ν) (rows row : List (Value ν)) (from_ to_ : Nat)
    (error : Option osrmc_error) :
    (map_find response "durations" = some (.Array rows) → rows[from_]? = some (.Array row) →
      row[to_]? = some .Null →
      osrmc_table_response_duration what narrow INFINITY response from_ to_ error =
        (INFINITY, some { code := "NoRoute", message := "Impossible route between points" })) ∧
    (map_find response "distances" = some (.Array rows) → rows[from_]? = some (.Array row) →
      row[to_]? = some .Null →
      osrmc_table_response_distance what narrow INFINITY response from_ to_ error =
        (INFINITY, some { code := "NoRoute", message := "Impossible route between points" })) := by
  constructor
  · intro hf hr hc
    simp [osrmc_table_response_duration, osrmc_table_response_duration_try, hf,
      map_index_of_find hf, vector_at_of_get hr, vector_at_of_get hc, get_Array, is_Null,
      bind, Except.bind]
  · intro hf hr hc
    simp [osrmc_table_response_distance, osrmc_table_response_distance_try, hf,
      map_index_of_find hf, vector_at_of_get hr, vector_at_of_get hc, get_Array, is_Null,
      bind, Except.bind]

/-- A two by two table whose cell `(0, 1)` is null, as durations and as
distances. -/
theorem table_response_null_cell_is_NoRoute_witness :
    osrmc_table_response_duration (fun _ => "what") (fun d : Int => some d) none
        [("durations", Value.Array [Value.Array [Value.Number 0, Value.Null],
                                    Value.Array [Value.Number 5, Value.Number 0]])]
        0 1 none =
      (none, some { code := "NoRoute", message := "Impossible route between points" }) ∧
    osrmc_table_response_distance (fun _ => "what") (fun d : Int => some d) none
        [("distances", Value.Array [Value.Array [Value.Number 0, Value.Null],
                                    Value.Array [Value.Number 5, Value.Number 0]])]
        0 1 none =
      (none, some { code := "NoRoute", message := "Impossible route between points" }) :=
  ⟨(table_response_null_cell_is_NoRoute _ _ _ _
      [Value.Array [Value.Number 0, Value.Null], Value.Array [Value.Number 5, Value.Number 0]]
      [Value.Number 0, Value.Null] 0 1 _).1 rfl rfl rfl,
   (table_response_null_cell_is_NoRoute _ _ _ _
      [Value.Array [Value.Number 0, Value.Null], Value.Array [Value.Number 5, Value.Number 0]]
      [Value.Number 0, Value.Null] 0 1 _).2 rfl rfl rfl⟩

end table_failures

/-! ## Scalar accessors: the handler and the success path -/

section scalar

variable {ν φ : Type}

/-- C3: the handler of `osrmc_table_response_distance` does not produce the
code `Exception`.  On a one by one distance table read at row 1 (an index out
of range, the field present, no null cell) the accessor returns `INFINITY` with
an error whose code is the text of the exception and whose message is empty, so
it is not the error with code `Exception` and that text as message; the
duration accessor on the same table under the key `durations` does produce that
error. -/
theorem table_response_distance_handler_drops_code (what : Exception → String) :
    osrmc_table_response_distance what (fun d : Int => some d) none
        [("distances", Value.Array [Value.Array [Value.Number 3]])] 1 0 none =
      (none, some { code := what (.vector_out_of_range 1 1), message := "" }) ∧
    osrmc_table_response_distance what (fun d : Int => some d) none
        [("distances", Value.Array [Value.Array [Value.Number 3]])] 1 0 none ≠
      (none, some { code := "Exception", message := what (.vector_out_of_range 1 1) }) ∧
    osrmc_table_response_duration what (fun d : Int => some d) none
        [("durations", Value.Array [Value.Array [Value.Number 3]])] 1 0 none =
      (none, some { code := "Exception", message := what (.vector_out_of_range 1 1) }) := by
  have h1 : osrmc_table_response_distance what (fun d : Int => some d) none
        [("distances", Value.Array [Value.Array [Value.Number 3]])] 1 0 none =
      (none, some { code := what (.vector_out_of_range 1 1), message := "" }) := rfl
  refine ⟨h1, ?_, rfl⟩
  rw [h1]
  intro h
  have h2 := congrArg (fun r => r.2) h
  simp only [Option.some.injEq, osrmc_error.mk.injEq] at h2
  obtain ⟨hc, hm⟩ := h2
  rw [← hm] at hc
  exact absurd hc (by decide)

/-- C4: when the fixed path of an accessor exists in the response and ends in a
JSON number, the accessor returns that number narrowed to single precision and
leaves the error slot as it was. -/
theorem accessor_returns_number_at_path (what : Exception → String) (narrow : ν → φ)
    (INFINITY : φ) (acc : Accessor) (response : Object ν) (d : ν) (error : Option osrmc_error)
    (h : resolve (.Object response) acc.path = some (.Number d)) :
    acc.call what narrow INFINITY response error = (narrow d, error) := by
  cases acc with
  | route_distance =>
    obtain ⟨o, v1, ho, hf1, h1⟩ := resolve_key_eq_some h
    obtain ⟨a, v2, ha, hg, h2⟩ := resolve_idx_eq_some h1
    obtain ⟨o2, v3, ho2, hf3, h3⟩ := resolve_key_eq_some h2
    have h4 := resolve_nil_eq_some h3
    cases ho; subst ha; subst ho2; subst h4
    simp [Accessor.call, osrmc_route_response_distance, osrmc_route_response_distance_try,
      map_index_of_find hf1, vector_at_of_get hg, map_index_of_find hf3, get_Array,
      get_Object, get_Number, bind, Except.bind]
  | route_duration =>
    obtain ⟨o, v1, ho, hf1, h1⟩ := resolve_key_eq_some h
    obtain ⟨a, v2, ha, hg, h2⟩ := resolve_idx_eq_some h1
    obtain ⟨o2, v3, ho2, hf3, h3⟩ := resolve_key_eq_some h2
    have h4 := resolve_nil_eq_some h3
    cases ho; subst ha; subst ho2; subst h4
    simp [Accessor.call, osrmc_route_response_duration, osrmc_route_response_duration_try,
      map_index_of_find hf1, vector_at_of_get hg, map_index_of_find hf3, get_Array,
      get_Object, get_Number, bind, Except.bind]
  | trip_distance =>
    obtain ⟨o, v1, ho, hf1, h1⟩ := resolve_key_eq_some h
    obtain ⟨a, v2, ha, hg, h2⟩ := resolve_idx_eq_some h1
    obtain ⟨o2, v3, ho2, hf3, h3⟩ := resolve_key_eq_some h2
    have h4 := resolve_nil_eq_some h3
    cases ho; subst ha; subst ho2; subst h4
    simp [Accessor.call, osrmc_trip_response_distance, osrmc_trip_response_distance_try,
      map_index_of_find hf1, vector_at_of_get hg, map_index_of_find hf3, get_Array,
      get_Object, get_Number, bind, Except.bind]
  | trip_duration =>
    obtain ⟨o, v1, ho, hf1, h1⟩ := resolve_key_eq_some h
    obtain ⟨a, v2, ha, hg, h2⟩ := resolve_idx_eq_some h1
    obtain ⟨o2, v3, ho2, hf3, h3⟩ := resolve_key_eq_some h2
    have h4 := resolve_nil_eq_some h3
    cases ho; subst ha; subst ho2; subst h4
    simp [Accessor.call, osrmc_trip_response_duration, osrmc_trip_response_duration_try,
      map_index_of_find hf1, vector_at_of_get hg, map_index_of_find hf3, get_Array,
      get_Object, get_Number, bind, Except.bind]
  | table_duration from_ to_ =>
    obtain ⟨o, v1, ho, hf1, h1⟩ := resolve_key_eq_some h
    obtain ⟨a, v2, ha, hg, h2⟩ := resolve_idx_eq_some h1
    obtain ⟨a2, v3, ha2, hg3, h3⟩ := resolve_idx_eq_some h2
    have h4 := resolve_nil_eq_some h3
    cases ho; subst ha; subst ha2; subst h4
    simp [Accessor.call, osrmc_table_response_duration, osrmc_table_response_duration_try, hf1,
      map_index_of_find hf1, vector_at_of_get hg, vector_at_of_get hg3, get_Array,
      get_Number, is_Null, bind, Except.bind]
  | table_distance from_ to_ =>
    obtain ⟨o, v1, ho, hf1, h1⟩ := resolve_key_eq_some h
    obtain ⟨a, v2, ha, hg, h2⟩ := resolve_idx_eq_some h1
    obtain ⟨a2, v3, ha2, hg3, h3⟩ := resolve_idx_eq_some h2
    have h4 := resolve_nil_eq_some h3
    cases ho; subst ha; subst ha2; subst h4
    simp [Accessor.call, osrmc_table_response_distance, osrmc_table_response_distance_try, hf1,
      map_index_of_find hf1, vector_at_of_get hg, vector_at_of_get hg3, get_Array,
      get_Number, is_Null, bind, Except.bind]

/-- The distance of the first route of a response with two routes, read while
the error slot already holds an error. -/
theorem accessor_returns_number_at_path_witness :
    resolve (.Object [("code", Value.String "Ok"),
        ("routes", Value.Array [Value.Object [("duration", Value.Number 90),
                                              ("distance", Value.Number 1200)],
                                Value.Object [("distance", Value.Number 1500)]])])
      Accessor.route_distance.path = some (.Number (1200 : Int)) ∧
    Accessor.route_distance.call (fun _ => "what") (fun d : Int => some d) none
      [("code", Value.String "Ok"),
        ("routes", Value.Array [Value.Object [("duration", Value.Number 90),
                                              ("distance", Value.Number 1200)],
                                Value.Object [("distance", Value.Number 1500)]])]
      (some { code := "Old", message := "left alone" }) =
      (some 1200, some { code := "Old", message := "left alone" }) :=
  ⟨rfl, accessor_returns_number_at_path _ _ _ _ _ _ _ rfl⟩

end scalar

/-! ## Scalar accessors: when the body raises -/

section failure

variable {ν φ : Type}

theorem get_Array_eq_ok {v : Value ν} {a : List (Value ν)} (h : get_Array v = .ok a) :
    v = .Array a := by
  cases v <;> simp [get_Array] at h
  rw [h]

theorem get_Object_eq_ok {v : Value ν} {o : Object ν} (h : get_Object v = .ok o) :
    v = .Object o := by
  cases v <;> simp [get_Object] at h
  rw [h]

theorem get_Number_eq_ok {v : Value ν} {d : ν} (h : get_Number v = .ok d) :
    v = .Number d := by
  cases v <;> simp [get_Number] at h
  rw [h]

theorem vector_at_eq_ok {values : List (Value ν)} {n : Nat} {v : Value ν}
    (h : vector_at values n = .ok v) : values[n]? = some v := by
  unfold vector_at at h
  cases hg : values[n]? with
  | none => simp [hg] at h
  | some w =>
    simp [hg] at h
    rw [h]

theorem map_find_of_index_array {values : Object ν} {key : String} {a : List (Value ν)}
    (h : map_index values key = .Array a) : map_find values key = some (.Array a) := by
  unfold map_index at h
  cases hf : map_find values key with
  | none => simp [hf] at h
  | some w =>
    simp [hf] at h
    rw [h]

theorem map_find_of_index_number {values : Object ν} {key : String} {d : ν}
    (h : map_index values key = .Number d) : map_find values key = some (.Number d) := by
  unfold map_index at h
  cases hf : map_find values key with
  | none => simp [hf] at h
  | some w =>
    simp [hf] at h
    rw [h]

/-- The body shared by the route and trip accessors, `key1[0].key2`: when it
ends normally, the path resolves to a number and the body returns that number
narrowed, with the error slot as received. -/
theorem first_entry_body_eq_ok (narrow : ν → φ) (response : Object ν) (key1 key2 : String)
    (error : Option osrmc_error) (r : φ × Option osrmc_error)
    (h : (do
      let routes ← get_Array (map_index response key1)
      let route ← get_Object (← vector_at routes 0)
      let x ← get_Number (map_index route key2)
      Except.ok (narrow x, error)) = Except.ok r) :
    ∃ d, resolve (.Object response) [.key key1, .idx 0, .key key2] = some (.Number d) ∧
      r = (narrow d, error) := by
  cases h1 : get_Array (map_index response key1) with
  | error e => simp [h1, bind, Except.bind] at h
  | ok routes =>
    cases h2 : vector_at routes 0 with
    | error e => simp [h1, h2, bind, Except.bind] at h
    | ok v =>
      cases h3 : get_Object v with
      | error e => simp [h1, h2, h3, bind, Except.bind] at h
      | ok route =>
        cases h4 : get_Number (map_index route key2) with
        | error e => simp [h1, h2, h3, h4, bind, Except.bind] at h
        | ok d =>
          simp [h1, h2, h3, h4, bind, Except.bind] at h
          refine ⟨d, ?_, h.symm⟩
          have f1 := map_find_of_index_array (get_Array_eq_ok h1)
          have f2 := vector_at_eq_ok h2
          have f3 := get_Object_eq_ok h3
          have f4 := map_find_of_index_number (get_Number_eq_ok h4)
          subst f3
          simp [resolve, f1, f2, f4]

/-- The failure path of the five accessors whose handler is
`osrmc_error_from_exception`: when the path of the
accessor does not resolve to a number and, for the table duration accessor, the
field is present and the cell is not null, the accessor returns `INFINITY` and
sets the error to code `Exception` with the text of the exception raised. -/
theorem accessor_failure_is_Exception (what : Exception → String) (narrow : ν → φ)
    (INFINITY : φ) (acc : Accessor) (response : Object ν) (error : Option osrmc_error)
    (hacc : ∀ from_ to_, acc ≠ .table_distance from_ to_)
    (hpath : ∀ d, resolve (.Object response) acc.path ≠ some (.Number d))
    (htable : ∀ from_ to_, acc = .table_duration from_ to_ →
      map_find response "durations" ≠ none ∧
      resolve (.Object response) acc.path ≠ some .Null) :
    ∃ e, acc.call what narrow INFINITY response error =
      (INFINITY, some { code := "Exception", message := what e }) := by
  cases acc with
  | route_distance =>
    simp only [Accessor.call, osrmc_route_response_distance]
    cases ht : osrmc_route_response_distance_try narrow response error with
    | error e => exact ⟨e, rfl⟩
    | ok r =>
      obtain ⟨d, hd, _⟩ := first_entry_body_eq_ok narrow response "routes" "distance" error r ht
      exact absurd hd (hpath d)
  | route_duration =>
    simp only [Accessor.call, osrmc_route_response_duration]
    cases ht : osrmc_route_response_duration_try narrow response error with
    | error e => exact ⟨e, rfl⟩
    | ok r =>
      obtain ⟨d, hd, _⟩ := first_entry_body_eq_ok narrow response "routes" "duration" error r ht
      exact absurd hd (hpath d)
  | trip_distance =>
    simp only [Accessor.call, osrmc_trip_response_distance]
    cases ht : osrmc_trip_response_distance_try narrow response error with
    | error e => exact ⟨e, rfl⟩
    | ok r =>
      obtain ⟨d, hd, _⟩ := first_entry_body_eq_ok narrow response "trips" "distance" error r ht
      exact absurd hd (hpath d)
  | trip_duration =>
    simp only [Accessor.call, osrmc_trip_response_duration]
    cases ht : osrmc_trip_response_duration_try narrow response error with
    | error e => exact ⟨e, rfl⟩
    | ok r =>
      obtain ⟨d, hd, _⟩ := first_entry_body_eq_ok narrow response "trips" "duration" error r ht
      exact absurd hd (hpath d)
  | table_duration from_ to_ =>
    obtain ⟨hfield, hnull⟩ := htable from_ to_ rfl
    simp only [Accessor.call, osrmc_table_response_duration]
    cases ht : osrmc_table_response_duration_try narrow INFINITY response from_ to_ error with
    | error e => exact ⟨e, rfl⟩
    | ok r =>
      exfalso
      unfold osrmc_table_response_duration_try at ht
      have hsome : (map_find response "durations").isNone = false := by
        cases hf : map_find response "durations" with
        | none => exact absurd hf hfield
        | some v => rfl
      simp only [hsome, Bool.false_eq_true, if_false] at ht
      cases h1 : get_Array (map_index response "durations") with
      | error e => simp [h1, bind, Except.bind] at ht
      | ok rows =>
        cases h2 : vector_at rows from_ with
        | error e => simp [h1, h2, bind, Except.bind] at ht
        | ok v =>
          cases h3 : get_Array v with
          | error e => simp [h1, h2, h3, bind, Except.bind] at ht
          | ok row =>
            cases h4 : vector_at row to_ with
            | error e => simp [h1, h2, h3, h4, bind, Except.bind] at ht
            | ok cell =>
              have f1 := map_find_of_index_array (get_Array_eq_ok h1)
              have f2 := vector_at_eq_ok h2
              have f3 := get_Array_eq_ok h3
              have f4 := vector_at_eq_ok h4
              subst f3
              have hres : resolve (.Object response) (Accessor.table_duration from_ to_).path =
                  some cell := by
                simp [Accessor.path, resolve, f1, f2, f4]
              cases cell with
              | Null => exact hnull hres
              | Number d => exact hpath d hres
              | _ => simp [h1, h2, h3, h4, is_Null, get_Number, bind, Except.bind] at ht
  | table_distance from_ to_ => exact absurd rfl (hacc from_ to_)

/-- A route response without routes, read for its distance. -/
theorem accessor_failure_is_Exception_witness :
    ∃ e : Exception, Accessor.route_distance.call (fun _ => "what") (fun d : Int => some d) none
        [("code", Value.String "Ok"), ("routes", Value.Array [])] none =
      (none, some { code := "Exception", message := (fun (_ : Exception) => "what") e }) :=
  accessor_failure_is_Exception (fun _ => "what") (fun d : Int => some d) none
    Accessor.route_distance [("code", Value.String "Ok"), ("routes", Value.Array [])] none
    (fun _ _ h => by cases h)
    (fun d h => by simp [Accessor.path, resolve, map_find, List.lookup] at h)
    (fun _ _ h => by cases h)

end failure

/-! ## Annotation selectors -/

theorem xor_eq_or_of_and_eq_zero {s m : Nat} (h : s &&& m = 0) : s ^^^ m = s ||| m := by
  apply Nat.eq_of_testBit_eq
  intro i
  have hi := congrArg (fun n => n.testBit i) h
  simp only [Nat.testBit_and, Nat.zero_testBit] at hi
  rw [Nat.testBit_xor, Nat.testBit_or]
  cases hs : s.testBit i <;> cases hm : m.testBit i <;> simp [hs, hm] at hi ⊢

theorem or_xor_cancel_of_and_eq_zero {s m : Nat} (h : s &&& m = 0) : (s ||| m) ^^^ m = s := by
  apply Nat.eq_of_testBit_eq
  intro i
  have hi := congrArg (fun n => n.testBit i) h
  simp only [Nat.testBit_and, Nat.zero_testBit] at hi
  rw [Nat.testBit_xor, Nat.testBit_or]
  cases hs : s.testBit i <;> cases hm : m.testBit i <;> simp [hs, hm] at hi ⊢

/-- C5: with `enable = false` the operation flips the distance bit instead of
clearing it.  On every selector whose distance bit is clear (the fresh selector
among them) `enable_distance(false)` gives the same selector as
`enable_distance(true)`, the one with the distance bit set, and a second
`enable_distance(false)` gives the first selector back; this holds for the
route and the table variant. -/
theorem enable_distance_false_flips (Distance s : Nat) (h : s &&& Distance = 0) :
    osrmc_route_annotations_enable_distance Distance s false = s ||| Distance ∧
    osrmc_route_annotations_enable_distance Distance s false =
      osrmc_route_annotations_enable_distance Distance s true ∧
    osrmc_route_annotations_enable_distance Distance
      (osrmc_route_annotations_enable_distance Distance s false) false = s ∧
    osrmc_table_annotations_enable_distance Distance s false = s ||| Distance ∧
    osrmc_table_annotations_enable_distance Distance s false =
      osrmc_table_annotations_enable_distance Distance s true ∧
    osrmc_table_annotations_enable_distance Distance
      (osrmc_table_annotations_enable_distance Distance s false) false = s := by
  simp [osrmc_route_annotations_enable_distance, osrmc_table_annotations_enable_distance,
    xor_eq_or_of_and_eq_zero h, or_xor_cancel_of_and_eq_zero h]

/-- The fresh route selector, `Duration = 1`, with `Distance = 4`: disabling
the distance sets its bit, and disabling it again clears it, so the call is not
idempotent. -/
theorem enable_distance_false_flips_witness :
    osrmc_route_annotations_construct 1 &&& 4 = 0 ∧
    osrmc_route_annotations_enable_distance 4 (osrmc_route_annotations_construct 1) false = 5 ∧
    osrmc_route_annotations_enable_distance 4
      (osrmc_route_annotations_enable_distance 4 (osrmc_route_annotations_construct 1) false)
      false ≠
      osrmc_route_annotations_enable_distance 4 (osrmc_route_annotations_construct 1) false :=
  ⟨by decide, (enable_distance_false_flips 4 (osrmc_route_annotations_construct 1)
      (by decide)).1, by decide⟩

/-- C6: a fresh selector is the `Duration` enumerator alone, and on every
selector whose distance bit is clear `enable_distance(true)` followed by
`enable_distance(false)` gives the selector back, so attaching the selector
after the round trip stores the annotation value that attaching it untouched
stores; this holds for the route and the table variant. -/
theorem enable_then_disable_distance_round_trip {κ φ : Type} (Duration Distance s : Nat)
    (route_params : RouteParameters κ φ) (table_params : TableParameters κ φ)
    (h : s &&& Distance = 0) :
    osrmc_route_annotations_construct Duration = Duration ∧
    osrmc_table_annotations_construct Duration = Duration ∧
    osrmc_route_annotations_enable_distance Distance
      (osrmc_route_annotations_enable_distance Distance s true) false = s ∧
    osrmc_table_annotations_enable_distance Distance
      (osrmc_table_annotations_enable_distance Distance s true) false = s ∧
    osrmc_route_params_set_annotations route_params
      (osrmc_route_annotations_enable_distance Distance
        (osrmc_route_annotations_enable_distance Distance s true) false) =
      osrmc_route_params_set_annotations route_params s ∧
    osrmc_table_params_set_annotations table_params
      (osrmc_table_annotations_enable_distance Distance
        (osrmc_table_annotations_enable_distance Distance s true) false) =
      osrmc_table_params_set_annotations table_params s := by
  have hr : osrmc_route_annotations_enable_distance Distance
      (osrmc_route_annotations_enable_distance Distance s true) false = s := by
    simp [osrmc_route_annotations_enable_distance, or_xor_cancel_of_and_eq_zero h]
  have ht : osrmc_table_annotations_enable_distance Distance
      (osrmc_table_annotations_enable_distance Distance s true) false = s := by
    simp [osrmc_table_annotations_enable_distance, or_xor_cancel_of_and_eq_zero h]
  refine ⟨rfl, rfl, hr, ht, ?_, ?_⟩
  · rw [hr]
  · rw [ht]

/-- The fresh table selector, `Duration = 1`, with `Distance = 2`, attached to
a parameter object after the round trip and attached untouched. -/
theorem enable_then_disable_distance_round_trip_witness :
    osrmc_table_annotations_construct 1 &&& 2 = 0 ∧
    osrmc_table_params_set_annotations
      ({ coordinates := [(13, 52)], radiuses := [], bearings := [], sources := [0],
         destinations := [], annotations := 0 } : TableParameters (Int × Int) Int)
      (osrmc_table_annotations_enable_distance 2
        (osrmc_table_annotations_enable_distance 2 (osrmc_table_annotations_construct 1) true)
        false) =
    osrmc_table_params_set_annotations
      ({ coordinates := [(13, 52)], radiuses := [], bearings := [], sources := [0],
         destinations := [], annotations := 0 } : TableParameters (Int × Int) Int)
      (osrmc_table_annotations_construct 1) :=
  ⟨by decide, (enable_then_disable_distance_round_trip 1 2 (osrmc_table_annotations_construct 1)
      ({ coordinates := [], radiuses := [], bearings := [], steps := false,
         alternatives := false, annotations_type := 0 } : RouteParameters (Int × Int) Int)
      _ (by decide)).2.2.2.2.2⟩

/-! ## Errors reported by the engine, and the dispatchers -/

section engine_errors

variable {ν ρ τ ψ : Type}

theorem osrmc_error_from_json_eq_some (what : Exception → String) (json : Object ν) :
    ∃ e, osrmc_error_from_json what json = some e := by
  unfold osrmc_error_from_json
  cases h : osrmc_error_from_json_try json with
  | error e => exact ⟨_, rfl⟩
  | ok r =>
    simp only [osrmc_error_from_json_try, bind, Except.bind] at h
    split at h
    · cases h
    · split at h
      · cases h
      · cases h
        exact ⟨_, rfl⟩

/-- C7: `osrmc_error_from_json` always leaves one error object in the slot.
When the fields `code` and `message` of the body are JSON strings `c` and `m`,
the error has message `m` and code `c`, or code `Unknown` when `c` is empty.
When one of the two fields is present and is not a JSON string, the error has
code `Exception` and the text of the exception raised by the extraction as
message. -/
theorem error_from_json_reads_code_and_message (what : Exception → String) (json : Object ν) :
    (∃ e, osrmc_error_from_json what json = some e) ∧
    (∀ c m, map_find json "code" = some (.String c) →
      map_find json "message" = some (.String m) →
      osrmc_error_from_json what json =
        some { code := if c = "" then "Unknown" else c, message := m }) ∧
    (∀ v, (map_find json "code" = some v ∨ map_find json "message" = some v) →
      (∀ t, v ≠ .String t) →
      osrmc_error_from_json what json =
        some { code := "Exception", message := what .bad_variant_access }) := by
  refine ⟨osrmc_error_from_json_eq_some what json, ?_, ?_⟩
  · intro c m hc hm
    simp [osrmc_error_from_json, osrmc_error_from_json_try, map_index_of_find hc,
      map_index_of_find hm, get_String, bind, Except.bind]
  · intro v hv hns
    rcases hv with hv | hv
    · have hg : get_String v = .error .bad_variant_access := by
        cases v with
        | String t => exact absurd rfl (hns t)
        | _ => rfl
      simp [osrmc_error_from_json, osrmc_error_from_json_try, map_index_of_find hv, hg,
        bind, Except.bind, osrmc_error_from_exception]
    · have hg : get_String v = .error .bad_variant_access := by
        cases v with
        | String t => exact absurd rfl (hns t)
        | _ => rfl
      cases hcode : get_String (map_index json "code") with
      | error e =>
        have he : e = .bad_variant_access := by
          cases hi : map_index json "code" <;> rw [hi] at hcode <;>
            simp [get_String] at hcode <;> exact hcode.symm
        subst he
        simp [osrmc_error_from_json, osrmc_error_from_json_try, hcode,
          bind, Except.bind, osrmc_error_from_exception]
      | ok c =>
        simp [osrmc_error_from_json, osrmc_error_from_json_try, hcode, map_index_of_find hv, hg,
          bind, Except.bind, osrmc_error_from_exception]

/-- An engine body with an empty code and one whose message is a number. -/
theorem error_from_json_reads_code_and_message_witness :
    osrmc_error_from_json (fun _ => "what")
        ([("message", Value.String "Impossible route"), ("code", Value.String "")] : Object Int) =
      some { code := "Unknown", message := "Impossible route" } ∧
    osrmc_error_from_json (fun _ => "what")
        ([("code", Value.String "NoRoute"), ("message", Value.Number 4)] : Object Int) =
      some { code := "Exception", message := "what" } :=
  ⟨(error_from_json_reads_code_and_message _ _).2.1 "" "Impossible route" rfl rfl,
   (error_from_json_reads_code_and_message _ _).2.2 (Value.Number 4) (Or.inr rfl)
     (fun t h => by cases h)⟩

/-- C8: each dispatcher, on the status `Ok`, returns the result tree of the
engine as the response and leaves the error slot as it was; on any other
status it returns the null handle and sets the error slot to the error
`osrmc_error_from_json` derives from the result tree.  A response is never
returned together with an error set by the call, and a null handle always comes
with an error. -/
theorem dispatcher_returns_response_or_error (what : Exception → String) (osrm : OSRM ν ρ τ ψ)
    (route_params : ρ) (table_params : τ) (trip_params : ψ) (error : Option osrmc_error) :
    (((osrm.Route route_params).1 = Status.Ok →
        osrmc_route what osrm route_params error = (some (osrm.Route route_params).2, error)) ∧
      ((osrm.Route route_params).1 ≠ Status.Ok →
        osrmc_route what osrm route_params error =
          (none, osrmc_error_from_json what (osrm.Route route_params).2)) ∧
      ((osrmc_route what osrm route_params error).1.isSome →
        (osrmc_route what osrm route_params error).2 = error) ∧
      ((osrmc_route what osrm route_params error).1 = none →
        (osrmc_route what osrm route_params error).2.isSome)) ∧
    (((osrm.Table table_params).1 = Status.Ok →
        osrmc_table what osrm table_params error = (some (osrm.Table table_params).2, error)) ∧
      ((osrm.Table table_params).1 ≠ Status.Ok →
        osrmc_table what osrm table_params error =
          (none, osrmc_error_from_json what (osrm.Table table_params).2)) ∧
      ((osrmc_table what osrm table_params error).1.isSome →
        (osrmc_table what osrm table_params error).2 = error) ∧
      ((osrmc_table what osrm table_params error).1 = none →
        (osrmc_table what osrm table_params error).2.isSome)) ∧
    (((osrm.Trip trip_params).1 = Status.Ok →
        osrmc_trip what osrm trip_params error = (some (osrm.Trip trip_params).2, error)) ∧
      ((osrm.Trip trip_params).1 ≠ Status.Ok →
        osrmc_trip what osrm trip_params error =
          (none, osrmc_error_from_json what (osrm.Trip trip_params).2)) ∧
      ((osrmc_trip what osrm trip_params error).1.isSome →
        (osrmc_trip what osrm trip_params error).2 = error) ∧
      ((osrmc_trip what osrm trip_params error).1 = none →
        (osrmc_trip what osrm trip_params error).2.isSome)) := by
  have hsome : ∀ json : Object ν, (osrmc_error_from_json what json).isSome := by
    intro json
    obtain ⟨e, he⟩ := osrmc_error_from_json_eq_some what json
    simp [he]
  refine ⟨?_, ?_, ?_⟩
  · unfold osrmc_route
    cases hq : osrm.Route route_params with
    | mk status out =>
      by_cases hs : status = Status.Ok
      · simp [hs]
      · simp [hs, hsome]
  · unfold osrmc_table
    cases hq : osrm.Table table_params with
    | mk status out =>
      by_cases hs : status = Status.Ok
      · simp [hs]
      · simp [hs, hsome]
  · unfold osrmc_trip
    cases hq : osrm.Trip trip_params with
    | mk status out =>
      by_cases hs : status = Status.Ok
      · simp [hs]
      · simp [hs, hsome]

/-- A table query the engine answers with `Ok`, and a route query it rejects
with an error body. -/
theorem dispatcher_returns_response_or_error_witness :
    osrmc_table (fun _ => "what")
        ({ Route := fun _ => (Status.Error, [("code", Value.String "NoRoute"),
                                             ("message", Value.String "No route found")]),
           Table := fun n => (Status.Ok, [("durations", Value.Array [Value.Number n])]),
           Trip := fun _ => (Status.Error, []) } : OSRM Int Unit Int Unit) 7 none =
      (some [("durations", Value.Array [Value.Number 7])], none) ∧
    osrmc_route (fun _ => "what")
        ({ Route := fun _ => (Status.Error, [("code", Value.String "NoRoute"),
                                             ("message", Value.String "No route found")]),
           Table := fun n => (Status.Ok, [("durations", Value.Array [Value.Number n])]),
           Trip := fun _ => (Status.Error, []) } : OSRM Int Unit Int Unit) () none =
      (none, some { code := "NoRoute", message := "No route found" }) :=
  ⟨(dispatcher_returns_response_or_error _ _ () 7 () none).2.1.1 rfl,
   (dispatcher_returns_response_or_error _ _ () 7 () none).1.2.1 (by decide)⟩

theorem waypoint_arguments_of_well_formed {waypoint : Value ν} {arguments : String × ν × ν}
    (h : WellFormedWaypoint waypoint arguments) :
    waypoint_arguments waypoint = .done arguments := by
  obtain ⟨o, rest, hw, hname, hloc⟩ := h
  subst hw
  simp [waypoint_arguments, get_Object, map_at, hname, hloc, get_Array, get_String, get_Number,
    bind, Except.bind]

theorem route_with_loop_of_well_formed {δ σ r : Type} (handler : δ → String → ν → ν → σ → r × σ)
    (data : δ) {waypoints : List (Value ν)} {arguments : List (String × ν × ν)}
    (h : List.Forall₂ WellFormedWaypoint waypoints arguments) (s : σ) :
    osrmc_route_with_loop handler data waypoints s =
      (arguments.foldl (fun s a => (handler data a.1 a.2.1 a.2.2 s).2) s, .done ()) := by
  induction h generalizing s with
  | nil => rfl
  | cons hw _ ih =>
    simp only [osrmc_route_with_loop, waypoint_arguments_of_well_formed hw, List.foldl_cons]
    exact ih _

theorem foldl_recording_handler {δ r : Type} (returned : r) (data : δ)
    (arguments : List (String × ν × ν)) (log : List (δ × String × ν × ν)) :
    arguments.foldl (fun s a => (recording_handler returned data a.1 a.2.1 a.2.2 s).2) log =
      log ++ arguments.map (fun a => (data, a.1, a.2.1, a.2.2)) := by
  induction arguments generalizing log with
  | nil => simp
  | cons a rest ih =>
    rw [List.foldl_cons, ih]
    simp [recording_handler]

/-- C9: on the status `Ok` and a result whose `waypoints` array holds `n`
well-formed entries, `osrmc_route_with` leaves the state of the caller as `n`
calls of the handler leave it, made in the order of the array, each with the
data pointer and the name, `location[0]` and `location[1]` of its entry; the
value the handler returns plays no part, and the error slot is as it was.  A
handler that records its calls ends with exactly those `n` calls appended to
its log.  On any other status the state of the caller is untouched (no call is
made) and the error is the one derived from the result body. -/
theorem route_with_calls_handler_per_waypoint {δ σ r : Type} (what : Exception → String)
    (osrm : OSRM ν ρ τ ψ) (params : ρ) (handler : δ → String → ν → ν → σ → r × σ) (data : δ)
    (s : σ) (error : Option osrmc_error) (result : Object ν) (waypoints : List (Value ν))
    (arguments : List (String × ν × ν)) (returned : r) (log : List (δ × String × ν × ν)) :
    (osrm.Route params = (Status.Ok, result) →
      map_find result "waypoints" = some (.Array waypoints) →
      List.Forall₂ WellFormedWaypoint waypoints arguments →
      osrmc_route_with what osrm params handler data s error =
        some (arguments.foldl (fun s a => (handler data a.1 a.2.1 a.2.2 s).2) s, error) ∧
      osrmc_route_with what osrm params (recording_handler returned) data log error =
        some (log ++ arguments.map (fun a => (data, a.1, a.2.1, a.2.2)), error) ∧
      arguments.length = waypoints.length) ∧
    ((osrm.Route params).1 ≠ Status.Ok →
      osrmc_route_with what osrm params handler data s error =
        some (s, osrmc_error_from_json what (osrm.Route params).2)) := by
  constructor
  · intro hq hw hwf
    have hat : (map_at result "waypoints" >>= get_Array) = .ok waypoints := by
      simp [map_at, hw, get_Array, bind, Except.bind]
    refine ⟨?_, ?_, hwf.length_eq.symm⟩
    · simp only [osrmc_route_with, hq, hat, route_with_loop_of_well_formed handler data hwf]
      simp
    · simp only [osrmc_route_with, hq, hat,
        route_with_loop_of_well_formed (recording_handler returned) data hwf,
        foldl_recording_handler]
      simp
  · intro hs
    unfold osrmc_route_with
    cases hq : osrm.Route params with
    | mk status out =>
      rw [hq] at hs
      simp only [ne_eq] at hs
      simp [hs]

/-- A route with two waypoints, walked by a handler that records its calls and
returns 0, and the same query rejected by the engine. -/
theorem route_with_calls_handler_per_waypoint_witness :
    osrmc_route_with (fun _ => "what")
        ({ Route := fun _ => (Status.Ok, [("code", Value.String "Ok"),
              ("waypoints", Value.Array [
                Value.Object [("name", Value.String "Unter den Linden"),
                              ("location", Value.Array [Value.Number 13, Value.Number 52])],
                Value.Object [("location", Value.Array [Value.Number 11, Value.Number 48]),
                              ("name", Value.String "Marienplatz")]])]),
           Table := fun _ => (Status.Error, []),
           Trip := fun _ => (Status.Error, []) } : OSRM Int Unit Unit Unit)
        () (recording_handler (0 : Int)) "data" [] none =
      some ([("data", "Unter den Linden", 13, 52), ("data", "Marienplatz", 11, 48)], none) ∧
    osrmc_route_with (fun _ => "what")
        ({ Route := fun _ => (Status.Error, [("code", Value.String "NoRoute"),
                                             ("message", Value.String "No route found")]),
           Table := fun _ => (Status.Error, []),
           Trip := fun _ => (Status.Error, []) } : OSRM Int Unit Unit Unit)
        () (recording_handler (0 : Int)) "data" [] none =
      some ([], some { code := "NoRoute", message := "No route found" }) :=
  ⟨((route_with_calls_handler_per_waypoint (fun _ => "what")
      ({ Route := fun _ => (Status.Ok, [("code", Value.String "Ok"),
              ("waypoints", Value.Array [
                Value.Object [("name", Value.String "Unter den Linden"),
                              ("location", Value.Array [Value.Number 13, Value.Number 52])],
                Value.Object [("location", Value.Array [Value.Number 11, Value.Number 48]),
                              ("name", Value.String "Marienplatz")]])]),
           Table := fun _ => (Status.Error, []),
           Trip := fun _ => (Status.Error, []) } : OSRM Int Unit Unit Unit)
      () (recording_handler (0 : Int)) "data" [] none _ _
      [("Unter den Linden", 13, 52), ("Marienplatz", 11, 48)] (0 : Int) []).1 rfl rfl
      (List.Forall₂.cons ⟨_, [], rfl, rfl, rfl⟩
        (List.Forall₂.cons ⟨_, [], rfl, rfl, rfl⟩ List.Forall₂.nil))).1,
   (route_with_calls_handler_per_waypoint (fun _ => "what")
      ({ Route := fun _ => (Status.Error, [("code", Value.String "NoRoute"),
                                           ("message", Value.String "No route found")]),
           Table := fun _ => (Status.Error, []),
           Trip := fun _ => (Status.Error, []) } : OSRM Int Unit Unit Unit)
      () (recording_handler (0 : Int)) "data" [] none [] [] [] (0 : Int) []).2 (by decide)⟩

end engine_errors

/-! ## Coordinate appends -/

section coordinates

variable {κ φ : Type}

theorem static_cast_short_of_in_range (x : Int) (hlo : -32768 ≤ x) (hhi : x < 32768) :
    static_cast_short x = x := by
  unfold static_cast_short
  omega

theorem foldl_apply_coordinates (Coordinate : φ → φ → κ) (calls : List (AddCoordinate φ))
    (params : BaseParameters κ φ) :
    (calls.foldl (AddCoordinate.apply Coordinate) params).coordinates =
      params.coordinates ++ calls.map (AddCoordinate.coordinate Coordinate) := by
  induction calls generalizing params with
  | nil => simp
  | cons c rest ih =>
    rw [List.foldl_cons, ih]
    cases c <;>
      simp [AddCoordinate.apply, AddCoordinate.coordinate, osrmc_params_add_coordinate,
        osrmc_params_add_coordinate_with]

/-- C10: `osrmc_params_add_coordinate` appends the pair at the end of the
coordinate list and leaves the radius and bearing lists as they were;
`osrmc_params_add_coordinate_with` appends one element to each of the three
lists: the pair, the radius, and the bearing built from `bearing` and `range`
(each converted to `short`, which changes no value of the 16-bit range).  After
any sequence of calls the coordinate list is the old list followed by the
coordinates of the calls, in the order of the calls, so `n` calls add `n`
entries. -/
theorem add_coordinate_appends_in_call_order (Coordinate : φ → φ → κ)
    (params : BaseParameters κ φ) (longitude latitude radius : φ) (bearing range : Int)
    (calls : List (AddCoordinate φ)) :
    (osrmc_params_add_coordinate Coordinate params longitude latitude).coordinates =
      params.coordinates ++ [Coordinate longitude latitude] ∧
    (osrmc_params_add_coordinate Coordinate params longitude latitude).radiuses =
      params.radiuses ∧
    (osrmc_params_add_coordinate Coordinate params longitude latitude).bearings =
      params.bearings ∧
    (osrmc_params_add_coordinate_with Coordinate params longitude latitude radius bearing
        range).coordinates = params.coordinates ++ [Coordinate longitude latitude] ∧
    (osrmc_params_add_coordinate_with Coordinate params longitude latitude radius bearing
        range).radiuses = params.radiuses ++ [some radius] ∧
    (osrmc_params_add_coordinate_with Coordinate params longitude latitude radius bearing
        range).bearings =
      params.bearings ++
        [some { bearing := static_cast_short bearing, range := static_cast_short range }] ∧
    (-32768 ≤ bearing ∧ bearing < 32768 ∧ -32768 ≤ range ∧ range < 32768 →
      (osrmc_params_add_coordinate_with Coordinate params longitude latitude radius bearing
        range).bearings = params.bearings ++ [some { bearing := bearing, range := range }]) ∧
    (calls.foldl (AddCoordinate.apply Coordinate) params).coordinates =
      params.coordinates ++ calls.map (AddCoordinate.coordinate Coordinate) ∧
    (calls.foldl (AddCoordinate.apply Coordinate) params).coordinates.length =
      params.coordinates.length + calls.length := by
  refine ⟨rfl, rfl, rfl, rfl, rfl, rfl, ?_, foldl_apply_coordinates Coordinate calls params, ?_⟩
  · rintro ⟨h1, h2, h3, h4⟩
    simp [osrmc_params_add_coordinate_with, static_cast_short_of_in_range _ h1 h2,
      static_cast_short_of_in_range _ h3 h4]
  · simp [foldl_apply_coordinates]

/-- Three appends on a parameter object that already holds one coordinate. -/
theorem add_coordinate_appends_in_call_order_witness :
    ([AddCoordinate.plain 13 52, AddCoordinate.with_ 11 48 25 90 10,
        AddCoordinate.plain 9 53].foldl
      (AddCoordinate.apply (fun (longitude latitude : Int) => (longitude, latitude)))
      { coordinates := [(2, 48)], radiuses := [], bearings := [] }).coordinates =
    [(2, 48), (13, 52), (11, 48), (9, 53)] :=
  (add_coordinate_appends_in_call_order (fun (longitude latitude : Int) => (longitude, latitude))
    { coordinates := [(2, 48)], radiuses := [], bearings := [] } 0 0 0 0 0
    [AddCoordinate.plain 13 52, AddCoordinate.with_ 11 48 25 90 10,
      AddCoordinate.plain 9 53]).2.2.2.2.2.2.2.1

end coordinates

/-! ## Configuration -/

section configuration

variable {S : Type}

/-- C11: `osrmc_config_construct` chooses the mode from the nullness of the
path alone.  For the null path the configuration has `use_shared_memory` true
and the storage configuration of a default-constructed configuration; for every
non-null path whose storage configuration is built without an exception it has
`use_shared_memory` false and exactly that storage configuration; in both cases
the handle is non-null and the error slot is as it was.  When the construction
of the storage configuration raises, the handle is null and the error is the
one of the exception. -/
theorem config_construct_selects_mode (what : Exception → String)
    (default_config : EngineConfig S) (StorageConfig : String → Except Exception S)
    (path : String) (error : Option osrmc_error) :
    osrmc_config_construct what default_config StorageConfig none error =
      (some { storage_config := default_config.storage_config, use_shared_memory := true },
       error) ∧
    (∀ storage_config, StorageConfig path = .ok storage_config →
      osrmc_config_construct what default_config StorageConfig (some path) error =
        (some { storage_config := storage_config, use_shared_memory := false }, error)) ∧
    (∀ e, StorageConfig path = .error e →
      osrmc_config_construct what default_config StorageConfig (some path) error =
        (none, some { code := "Exception", message := what e })) := by
  refine ⟨rfl, ?_, ?_⟩
  · intro storage_config h
    simp [osrmc_config_construct, osrmc_config_construct_try, h, bind, Except.bind]
  · intro e h
    simp [osrmc_config_construct, osrmc_config_construct_try, h, bind, Except.bind,
      osrmc_error_from_exception]

/-- A configuration built from the null path and one built from a path, with a
storage configuration that keeps the path it is given, over a default
configuration with an empty path. -/
theorem config_construct_selects_mode_witness :
    osrmc_config_construct (fun _ => "what")
        ({ storage_config := "", use_shared_memory := true } : EngineConfig String)
        (fun p => .ok p) none none =
      (some { storage_config := "", use_shared_memory := true }, none) ∧
    osrmc_config_construct (fun _ => "what")
        ({ storage_config := "", use_shared_memory := true } : EngineConfig String)
        (fun p => .ok p) (some "/data/berlin.osrm") none =
      (some { storage_config := "/data/berlin.osrm", use_shared_memory := false }, none) :=
  ⟨(config_construct_selects_mode (fun _ => "what")
      ({ storage_config := "", use_shared_memory := true } : EngineConfig String)
      (fun p => .ok p) "/data/berlin.osrm" none).1,
   (config_construct_selects_mode (fun _ => "what")
      ({ storage_config := "", use_shared_memory := true } : EngineConfig String)
      (fun p => .ok p) "/data/berlin.osrm" none).2.1 "/data/berlin.osrm" rfl⟩

end configuration

/-! ## Version -/

theorem pack_version_shiftRight (major minor : Nat) (hmajor : major < 2 ^ 16)
    (hminor : minor < 2 ^ 16) : pack_version major minor >>> 16 = major := by
  unfold pack_version
  rw [Nat.shiftLeft_eq, Nat.mul_comm, ← Nat.mul_add_lt_is_or hminor, Nat.shiftRight_eq_div_pow]
  omega

/-- C12: for a major and a minor version below `2^16` the packed version
`(major << 16) | minor` shifted right by 16 is the major version, so the check
of the reported version against a compiled-in major version is true exactly
when the two major versions are equal, whatever the minor versions are; with
the constants of the header (major 1, minor 0) `osrmc_get_version` returns
65536 and `osrmc_is_abi_compatible` returns true (the `int` 1). -/
theorem version_check_depends_on_major_only (major minor compiled_major compiled_minor : Nat)
    (hmajor : major < 2 ^ 16) (hminor : minor < 2 ^ 16) :
    pack_version major minor >>> 16 = major ∧
    (abi_check (pack_version major minor) compiled_major = true ↔ major = compiled_major) ∧
    (compiled_major < 2 ^ 16 → compiled_minor < 2 ^ 16 →
      (abi_check (pack_version major minor) compiled_major = true ↔
        pack_version major minor >>> 16 = pack_version compiled_major compiled_minor >>> 16)) ∧
    osrmc_get_version = 65536 ∧
    osrmc_is_abi_compatible = 1 := by
  have h := pack_version_shiftRight major minor hmajor hminor
  refine ⟨h, ?_, ?_, by decide, by decide⟩
  · simp [abi_check, h]
  · intro hc1 hc2
    simp [abi_check, h, pack_version_shiftRight compiled_major compiled_minor hc1 hc2]

/-- Version 1.7 reported to a build compiled as 1.0, and version 2.0 reported
to the same build. -/
theorem version_check_depends_on_major_only_witness :
    pack_version 1 7 >>> 16 = 1 ∧
    abi_check (pack_version 1 7) OSRMC_VERSION_MAJOR = true ∧
    abi_check (pack_version 2 0) OSRMC_VERSION_MAJOR = false :=
  ⟨(version_check_depends_on_major_only 1 7 OSRMC_VERSION_MAJOR OSRMC_VERSION_MINOR
      (by decide) (by decide)).1,
   (version_check_depends_on_major_only 1 7 OSRMC_VERSION_MAJOR OSRMC_VERSION_MINOR
      (by decide) (by decide)).2.1.2 rfl,
   by decide⟩

/-! ## Trip anchoring -/

section trip_anchoring

variable {κ φ : Type}

theorem apply_keeps_source_first (params : TripParameters κ φ) (call : AnchorCall)
    (h : params.source = SourceType.First) :
    (AnchorCall.apply params call).source = SourceType.First := by
  cases call with
  | add_source first =>
    cases first <;> simp [AnchorCall.apply, osrmc_trip_params_add_source, h]
  | add_destination last =>
    cases last <;> simp [AnchorCall.apply, osrmc_trip_params_add_destination, h]

theorem apply_keeps_destination_last (params : TripParameters κ φ) (call : AnchorCall)
    (h : params.destination = DestinationType.Last) :
    (AnchorCall.apply params call).destination = DestinationType.Last := by
  cases call with
  | add_source first =>
    cases first <;> simp [AnchorCall.apply, osrmc_trip_params_add_source, h]
  | add_destination last =>
    cases last <;> simp [AnchorCall.apply, osrmc_trip_params_add_destination, h]

theorem foldl_apply_keeps_source_first (calls : List AnchorCall) (params : TripParameters κ φ)
    (h : params.source = SourceType.First) :
    (calls.foldl AnchorCall.apply params).source = SourceType.First := by
  induction calls generalizing params with
  | nil => exact h
  | cons call rest ih => exact ih _ (apply_keeps_source_first params call h)

theorem foldl_apply_keeps_destination_last (calls : List AnchorCall)
    (params : TripParameters κ φ) (h : params.destination = DestinationType.Last) :
    (calls.foldl AnchorCall.apply params).destination = DestinationType.Last := by
  induction calls generalizing params with
  | nil => exact h
  | cons call rest ih => exact ih _ (apply_keeps_destination_last params call h)

/-- C13: the anchoring setters pin and never unpin.  With the argument false
`osrmc_trip_params_add_source` and `osrmc_trip_params_add_destination` return
the parameter object as it was; with the argument true the first sets the
source to `First` and the second the destination to `Last`, and every other
member keeps its value.  After any sequence of calls of the two setters a
source that was `First` is `First` and a destination that was `Last` is
`Last`. -/
theorem anchoring_setters_only_pin (params : TripParameters κ φ) (calls : List AnchorCall) :
    osrmc_trip_params_add_source params false = params ∧
    osrmc_trip_params_add_destination params false = params ∧
    osrmc_trip_params_add_source params true = { params with source := SourceType.First } ∧
    ((osrmc_trip_params_add_source params true).source = SourceType.First ∧
      (osrmc_trip_params_add_source params true).destination = params.destination ∧
      (osrmc_trip_params_add_source params true).roundtrip = params.roundtrip ∧
      (osrmc_trip_params_add_source params true).toRouteParameters =
        params.toRouteParameters) ∧
    osrmc_trip_params_add_destination params true =
      { params with destination := DestinationType.Last } ∧
    ((osrmc_trip_params_add_destination params true).destination = DestinationType.Last ∧
      (osrmc_trip_params_add_destination params true).source = params.source ∧
      (osrmc_trip_params_add_destination params true).roundtrip = params.roundtrip ∧
      (osrmc_trip_params_add_destination params true).toRouteParameters =
        params.toRouteParameters) ∧
    (params.source = SourceType.First →
      (calls.foldl AnchorCall.apply params).source = SourceType.First) ∧
    (params.destination = DestinationType.Last →
      (calls.foldl AnchorCall.apply params).destination = DestinationType.Last) := by
  refine ⟨rfl, rfl, rfl, ⟨rfl, rfl, rfl, rfl⟩, rfl, ⟨rfl, rfl, rfl, rfl⟩,
    foldl_apply_keeps_source_first calls params,
    foldl_apply_keeps_destination_last calls params⟩

/-- A round trip with pinned source, after four further calls of the setters,
two of them with the argument false. -/
theorem anchoring_setters_only_pin_witness :
    ([AnchorCall.add_source false, AnchorCall.add_destination true,
        AnchorCall.add_source false, AnchorCall.add_destination false].foldl AnchorCall.apply
      ({ coordinates := [(13, 52), (11, 48)], radiuses := [], bearings := [], steps := false,
         alternatives := false, annotations_type := 1, source := SourceType.First,
         destination := DestinationType.Any, roundtrip := true } :
        TripParameters (Int × Int) Int)).source = SourceType.First :=
  (anchoring_setters_only_pin
    ({ coordinates := [(13, 52), (11, 48)], radiuses := [], bearings := [], steps := false,
       alternatives := false, annotations_type := 1, source := SourceType.First,
       destination := DestinationType.Any, roundtrip := true } :
      TripParameters (Int × Int) Int)
    [AnchorCall.add_source false, AnchorCall.add_destination true,
      AnchorCall.add_source false, AnchorCall.add_destination false]).2.2.2.2.2.2.1 rfl

end trip_anchoring

end osrmc
